import Mathlib

/-!
Verification of the markitdown-microservice core against its specification.

The definitions below are a shallow embedding of the Python sources:
  - `app/services/converter.py`: the markdown normalizer `_clean_markdown`,
    the title-extraction fallback of `_convert_sync`, and the
    `ConversionService` / `WorkerPool` lifecycle state machines;
  - `app/core/security.py`: `validate_file_type` and `validate_file_size`.

Strings are modelled as `String` / `List Char`; the regular-expression
substitutions of `_clean_markdown` are implemented as left-to-right scans
with the exact semantics of `re.sub` (non-overlapping matches, scanning
resumes after each match, greedy quantifiers with the backtracking the
patterns admit). Fallible Python code (raise) returns an explicit result
type. Scans use a fuel argument equal to the input length so that every
definition is structurally recursive and kernel-evaluable.
-/

namespace Markitdown

/-- The whitespace class shared by Python's `str.strip` / `str.rstrip` and
`re`'s `\s` on `str` patterns: ASCII whitespace plus the Unicode whitespace
code points. U+200B is not whitespace. -/
def isPySpace (c : Char) : Bool :=
  c = ' ' || c = '\t' || c = '\n' || c = '\r' ||
  c.toNat = 0x0b || c.toNat = 0x0c ||
  c.toNat = 0x1c || c.toNat = 0x1d || c.toNat = 0x1e || c.toNat = 0x1f ||
  c.toNat = 0x85 || c.toNat = 0xa0 || c.toNat = 0x1680 ||
  (0x2000 ≤ c.toNat && c.toNat ≤ 0x200a) ||
  c.toNat = 0x2028 || c.toNat = 0x2029 || c.toNat = 0x202f ||
  c.toNat = 0x205f || c.toNat = 0x3000

/-- The backtick character (U+0060). -/
def btick : Char := Char.ofNat 0x60

/-- Python `s.split('\n')` on character lists. -/
def splitLines : List Char → List (List Char)
  | [] => [[]]
  | c :: rest =>
    let r := splitLines rest
    if c = '\n' then [] :: r
    else
      match r with
      | h :: t => (c :: h) :: t
      | [] => [[c]]

/-- Python `'\n'.join(lines)` on character lists. -/
def joinLines : List (List Char) → List Char
  | [] => []
  | [l] => l
  | l :: ls => l ++ '\n' :: joinLines ls

/-- Python `line.rstrip()`: drop trailing whitespace. -/
def pyRstrip (l : List Char) : List Char := (l.reverse.dropWhile isPySpace).reverse

/-- Python `s.strip()`: drop leading and trailing whitespace. -/
def pyStrip (l : List Char) : List Char :=
  ((l.dropWhile isPySpace).reverse.dropWhile isPySpace).reverse

/-- converter.py line 182, scanner: `re.sub(r'\n{3,}', '\n\n', markdown)` with
`k` pending newlines; a maximal run of three or more newlines is emitted as
exactly two. -/
def collapseGo (k : Nat) : List Char → List Char
  | [] => List.replicate (if 3 ≤ k then 2 else k) '\n'
  | c :: rest =>
    if c = '\n' then collapseGo (k + 1) rest
    else List.replicate (if 3 ≤ k then 2 else k) '\n' ++ c :: collapseGo 0 rest

/-- converter.py line 182: collapse runs of three or more newlines to two. -/
def collapseNewlines (cs : List Char) : List Char := collapseGo 0 cs

/-- converter.py lines 185-187: split on newlines, `rstrip` each line, rejoin. -/
def rstripLines (cs : List Char) : List Char :=
  joinLines ((splitLines cs).map pyRstrip)

/-- Length of the leading run of `#` characters. -/
def hashRun (cs : List Char) : Nat := (cs.takeWhile (· = '#')).length

/-- Match of `#{1,6}\s` at the head of `cs`: the consumed length when `cs`
starts with one to six `#` followed by a whitespace character (the greedy
`#{1,6}` can only succeed on the full run, capped at six, because every
shorter attempt would need `\s` to match a `#`). -/
def hashWsMatch (cs : List Char) : Option Nat :=
  let r := hashRun cs
  if 1 ≤ r ∧ r ≤ 6 then
    match (cs.drop r).head? with
    | some w => if isPySpace w then some (r + 1) else none
    | none => none
  else none

/-- converter.py line 190, scanner:
`re.sub(r'([^\n])\n(#{1,6}\s)', r'\1\n\n\2', markdown)`. Fuel-indexed
left-to-right scan; on a match the replacement inserts one newline and the
scan resumes after the consumed text. -/
def headerBeforeGo : Nat → List Char → List Char
  | 0, cs => cs
  | _ + 1, [] => []
  | fuel + 1, a :: rest =>
    if a = '\n' then a :: headerBeforeGo fuel rest
    else
      match rest with
      | '\n' :: rest2 =>
        match hashWsMatch rest2 with
        | some n =>
          a :: '\n' :: '\n' :: (rest2.take n ++ headerBeforeGo fuel (rest2.drop n))
        | none => a :: headerBeforeGo fuel rest
      | _ => a :: headerBeforeGo fuel rest

/-- converter.py line 190: insert a blank line before a heading preceded by a
non-newline character. -/
def headerBefore (cs : List Char) : List Char := headerBeforeGo cs.length cs

/-- Match of `(#{1,6}\s.+)\n([^\n])` at the head of `cs`: on success,
`(consumed, replacement)` where the replacement is `\1\n\n\2`. The greedy
`.+` must run exactly to the next newline (backtracking cannot succeed
elsewhere because `.` excludes the newline the pattern then requires). -/
def headerAfterMatch (cs : List Char) : Option (Nat × List Char) :=
  let r := hashRun cs
  if 1 ≤ r ∧ r ≤ 6 then
    match (cs.drop r).head? with
    | some w =>
      if isPySpace w then
        let d := ((cs.drop (r + 1)).takeWhile (· ≠ '\n')).length
        if 1 ≤ d then
          match (cs.drop (r + 1 + d)).head?, (cs.drop (r + 1 + d + 1)).head? with
          | some '\n', some b =>
            if b = '\n' then none
            else some (r + 1 + d + 2, cs.take (r + 1 + d) ++ '\n' :: '\n' :: [b])
          | _, _ => none
        else none
      else none
    | none => none
  else none

/-- converter.py line 191, scanner:
`re.sub(r'(#{1,6}\s.+)\n([^\n])', r'\1\n\n\2', markdown)`. -/
def headerAfterGo : Nat → List Char → List Char
  | 0, cs => cs
  | _ + 1, [] => []
  | fuel + 1, c :: rest =>
    match headerAfterMatch (c :: rest) with
    | some (n, rep) => rep ++ headerAfterGo fuel ((c :: rest).drop n)
    | none => c :: headerAfterGo fuel rest

/-- converter.py line 191: insert a blank line after a heading followed by a
non-newline character. -/
def headerAfter (cs : List Char) : List Char := headerAfterGo cs.length cs

/-- converter.py line 195: `markdown.replace('​', '')`. -/
def removeZeroWidth (cs : List Char) : List Char :=
  cs.filter (fun c => c.toNat ≠ 0x200b)

/-- A bullet character of the pattern `[•·]`. -/
def isBullet (c : Char) : Bool := c = '•' || c = '·'

/-- Match of `\s*[•·]\s+` at the head of `cs`: the consumed length. The
greedy `\s*` can only stop at the first non-whitespace character, which must
be the bullet; the trailing `\s+` is the maximal whitespace run after it and
must be non-empty. -/
def bulletMatch (cs : List Char) : Option Nat :=
  let w := (cs.takeWhile isPySpace).length
  match (cs.drop w).head? with
  | some c =>
    if isBullet c then
      let v := ((cs.drop (w + 1)).takeWhile isPySpace).length
      if 1 ≤ v then some (w + 1 + v) else none
    else none
  | none => none

/-- converter.py line 198, scanner:
`re.sub(r'^\s*[•·]\s+', '- ', markdown, flags=re.MULTILINE)`. A match may
start only where `^` holds in the original string (position zero or right
after a newline); after a match the scan resumes after the consumed text,
which is a line start again exactly when the last consumed character was a
newline. -/
def bulletGo : Nat → Bool → List Char → List Char
  | 0, _, cs => cs
  | _ + 1, _, [] => []
  | fuel + 1, lineStart, c :: rest =>
    if lineStart then
      match bulletMatch (c :: rest) with
      | some n =>
        '-' :: ' ' ::
          bulletGo fuel (((c :: rest).take n).getLast? == some '\n') ((c :: rest).drop n)
      | none => c :: bulletGo fuel (c = '\n') rest
    else c :: bulletGo fuel (c = '\n') rest

/-- converter.py line 198: normalize `•`/`·` bullets to `- `. -/
def bulletSub (cs : List Char) : List Char := bulletGo cs.length true cs

/-- The word-character class `\w` (ASCII fragment; fence language tags are
ASCII). -/
def isWordChar (c : Char) : Bool :=
  ('a' ≤ c && c ≤ 'z') || ('A' ≤ c && c ≤ 'Z') || ('0' ≤ c && c ≤ '9') || c = '_'

/-- Match of three backticks, `\w*`, then two newlines at the head of `cs`:
the consumed length (the `\w*` run is maximal; shorter attempts would need a
newline to be a word character). -/
def fenceOpenMatch (cs : List Char) : Option Nat :=
  if cs.take 3 == [btick, btick, btick] then
    let k := ((cs.drop 3).takeWhile isWordChar).length
    if (cs.drop (3 + k)).take 2 == ['\n', '\n'] then some (3 + k + 2) else none
  else none

/-- converter.py line 201, scanner: collapse the blank line right after an
opening code-fence marker (the replacement is the matched text minus its
final newline). -/
def fenceOpenGo : Nat → List Char → List Char
  | 0, cs => cs
  | _ + 1, [] => []
  | fuel + 1, c :: rest =>
    match fenceOpenMatch (c :: rest) with
    | some n => (c :: rest).take (n - 1) ++ fenceOpenGo fuel ((c :: rest).drop n)
    | none => c :: fenceOpenGo fuel rest

/-- converter.py line 201. -/
def fenceOpen (cs : List Char) : List Char := fenceOpenGo cs.length cs

/-- Match of two newlines then three backticks at the head of `cs`. -/
def fenceCloseAt (cs : List Char) : Bool :=
  cs.take 5 == ['\n', '\n', btick, btick, btick]

/-- converter.py line 202, scanner: collapse the blank line right before a
closing code-fence marker. -/
def fenceCloseGo : Nat → List Char → List Char
  | 0, cs => cs
  | _ + 1, [] => []
  | fuel + 1, c :: rest =>
    if fenceCloseAt (c :: rest) then
      '\n' :: btick :: btick :: btick :: fenceCloseGo fuel ((c :: rest).drop 5)
    else c :: fenceCloseGo fuel rest

/-- converter.py line 202. -/
def fenceClose (cs : List Char) : List Char := fenceCloseGo cs.length cs

/-- The whole `_clean_markdown` pipeline on character lists, in source order:
collapse newline runs, rstrip lines, heading spacing (before, then after),
remove zero-width spaces, normalize bullets, fix code fences, strip. -/
def cleanList (cs : List Char) : List Char :=
  pyStrip (fenceClose (fenceOpen (bulletSub (removeZeroWidth
    (headerAfter (headerBefore (rstripLines (collapseNewlines cs))))))))

/-- converter.py lines 168-207: `_clean_markdown`. Empty input returns the
empty string (`if not markdown: return ""`). -/
def _clean_markdown (markdown : String) : String :=
  if markdown = "" then "" else String.mk (cleanList markdown.data)

/-- `_clean_markdown` lifted to optional input: Python `None` is also falsy
and yields the empty string. -/
def cleanMarkdownOpt : Option String → String
  | none => ""
  | some s => _clean_markdown s

/-- converter.py line 151: `re.match(r'^#\s+(.+)$', cleaned, re.MULTILINE)`
followed by `.group(1).strip()`. `re.match` anchors at position zero even
under `re.MULTILINE`, so the string must begin with `#`; the greedy `\s+`
takes the maximal whitespace run after it, backtracking only when the run
reaches the end of the string (then `.` may still consume released
non-newline whitespace); the group is the greedy `.+` up to the line end. -/
def extract_title (cleaned : String) : Option String :=
  match cleaned.data with
  | [] => none
  | c :: rest =>
    if c = '#' then
      let ws := rest.takeWhile isPySpace
      let m := ws.length
      if m = 0 then none
      else
        match (rest.drop m).head? with
        | some _ => some (String.mk (pyStrip ((rest.drop m).takeWhile (· ≠ '\n'))))
        | none =>
          let t := (ws.reverse.takeWhile (· = '\n')).length
          if t + 2 ≤ m then
            some (String.mk (pyStrip ((ws.drop (m - 1 - t)).takeWhile (· ≠ '\n'))))
          else none
    else none

/-- converter.py lines 144-153: the title field of `_convert_sync`'s result.
`result_title` is the converter-supplied title (`None` when the attribute is
missing); a falsy title (`None` or `""`) falls back to `extract_title` of the
cleaned markdown, and stays unchanged when that match fails. -/
def _convert_sync_title (result_title : Option String) (cleaned : String) :
    Option String :=
  if result_title.getD "" = "" then
    match extract_title cleaned with
    | some t => some t
    | none => result_title
  else result_title

/-- Modelled from the spec claim's words (claim C2): the text of the first
top-level markdown heading line, `#` followed by whitespace, occurring
anywhere in the text. -/
def headingTitleOfLine : List Char → Option String
  | '#' :: c :: rest => if isPySpace c then some (String.mk (pyStrip rest)) else none
  | _ => none

/-- Modelled from the spec claim's words (claim C2): title of the first
top-level heading line anywhere in the markdown. -/
def firstHeadingTitle (md : String) : Option String :=
  ((splitLines md.data).filterMap headingTitleOfLine).head?

/-- config.py `Settings.SUPPORTED_EXTENSIONS`. -/
def SUPPORTED_EXTENSIONS : List String :=
  [".pdf", ".docx", ".doc", ".pptx", ".ppt",
   ".xlsx", ".xls", ".csv", ".html", ".htm",
   ".epub", ".msg", ".mp3", ".m4a", ".wav",
   ".jpg", ".jpeg", ".png", ".gif", ".bmp",
   ".xml", ".rss", ".txt", ".md", ".json",
   ".ipynb", ".zip"]

/-- security.py lines 143-170: the `supported_mimetypes` set. -/
def supported_mimetypes : List String :=
  ["application/pdf",
   "application/vnd.openxmlformats-officedocument.wordprocessingml.document",
   "application/msword",
   "application/vnd.openxmlformats-officedocument.presentationml.presentation",
   "application/vnd.ms-powerpoint",
   "application/vnd.openxmlformats-officedocument.spreadsheetml.sheet",
   "application/vnd.ms-excel",
   "text/csv",
   "text/html",
   "application/epub+zip",
   "application/vnd.ms-outlook",
   "audio/mpeg",
   "audio/mp4",
   "audio/wav",
   "image/jpeg",
   "image/png",
   "image/gif",
   "image/bmp",
   "application/rss+xml",
   "text/xml",
   "text/plain",
   "text/markdown",
   "application/json",
   "application/x-ipynb+json",
   "application/zip",
   "application/x-zip-compressed"]

/-- The errors `security.py` raises (as `HTTPException`s): unsupported
extension and unsupported MIME type carry status 415, an oversized payload
carries status 413. -/
inductive SecurityError
  | unsupportedExtension (ext : String)
  | unsupportedMime (mimetype : String)
  | payloadTooLarge
deriving DecidableEq

/-- `validate_file_type` either raises or returns the pair
`(detected_mimetype, file_extension)`, each of which may be `None`. -/
inductive ValidationResult
  | ok (mimetype : Option String) (file_extension : Option String)
  | error (e : SecurityError)
deriving DecidableEq

/-- Python `s.split('.')` on character lists. -/
def splitDot : List Char → List (List Char)
  | [] => [[]]
  | c :: rest =>
    if c = '.' then [] :: splitDot rest
    else
      match splitDot rest with
      | h :: t => (c :: h) :: t
      | [] => [[c]]

/-- security.py lines 124-129: the derived extension.
`filename.lower().split('.')` (modelled with ASCII `Char.toLower`), and when
the filename is truthy and has more than one dot-segment the extension is a
dot followed by the last segment. -/
def deriveExtension (filename : String) : Option String :=
  if filename = "" then none
  else if (splitDot (filename.data.map Char.toLower)).length > 1 then
    some (String.mk ('.' :: (splitDot (filename.data.map Char.toLower)).getLastD []))
  else none

/-- Python `s.startswith(pre)`. -/
def pyStartsWith (s pre : String) : Bool :=
  s.data.take pre.data.length == pre.data

/-- security.py lines 142-178: the MIME-type validation tail of
`validate_file_type`. A truthy detected mimetype outside the supported set is
rejected unless it starts with `text/`; a falsy one (None or `""`) passes
through and is returned as-is. -/
def mimeCheck (detected : Option String) (ext : Option String) : ValidationResult :=
  if detected.getD "" ≠ "" ∧ detected.getD "" ∉ supported_mimetypes ∧
      ¬ pyStartsWith (detected.getD "") "text/" = true then
    .error (.unsupportedMime (detected.getD ""))
  else .ok detected ext

/-- security.py lines 131-133: `if not detected_mimetype and
provided_mimetype: detected_mimetype = provided_mimetype`. A falsy detected
mimetype (None or `""`) is replaced by a truthy provided one. -/
def detectedAfterFallback (detected_mimetype provided_mimetype : Option String) :
    Option String :=
  if detected_mimetype.getD "" = "" ∧ provided_mimetype.getD "" ≠ "" then
    provided_mimetype
  else detected_mimetype

/-- security.py lines 106-180: `validate_file_type`. The magic-number sniff
is an external call, modelled by its outcome `detected_mimetype` (`none` when
detection raised). The provided mimetype replaces a falsy detected one
(lines 131-133); a present extension outside the allow-list is rejected
first (lines 135-140); then the MIME check runs. -/
def validate_file_type (detected_mimetype : Option String) (filename : String)
    (provided_mimetype : Option String) : ValidationResult :=
  if (deriveExtension filename).getD "" ≠ "" ∧
      (deriveExtension filename).getD "" ∉ SUPPORTED_EXTENSIONS then
    .error (.unsupportedExtension ((deriveExtension filename).getD ""))
  else
    mimeCheck (detectedAfterFallback detected_mimetype provided_mimetype)
      (deriveExtension filename)

/-- security.py lines 183-195: `validate_file_size` raises 413 when the size
exceeds the configured limit, otherwise returns `None`. The limit
(`settings.MAX_FILE_SIZE`) is passed explicitly. -/
def validate_file_size (file_size max_file_size : Int) : Option SecurityError :=
  if file_size > max_file_size then some .payloadTooLarge else none

/-- The `self.executor` attribute of `ConversionService`: `None` before the
first initialization, a live `ProcessPoolExecutor` after `initialize`, a
shut-down one after `shutdown` (Python keeps the object, which stays
truthy). -/
inductive ExecutorState
  | noExecutor
  | alive
  | shutDown
deriving DecidableEq

/-- converter.py lines 32-100: the state of a `ConversionService`. -/
structure ConversionService where
  max_workers : Nat
  executor : ExecutorState
  _initialized : Bool
deriving DecidableEq

/-- converter.py lines 35-38: `ConversionService.__init__`. -/
def ConversionService.new (max_workers : Nat) : ConversionService :=
  ⟨max_workers, .noExecutor, false⟩

/-- converter.py lines 40-45: `initialize` creates the executor unless
already initialized. -/
def ConversionService.initializeService (s : ConversionService) : ConversionService :=
  if s._initialized then s else { s with executor := .alive, _initialized := true }

/-- converter.py lines 47-52: `shutdown` shuts the executor down when one
exists (the attribute stays truthy) and clears `_initialized`. -/
def ConversionService.shutdownService (s : ConversionService) : ConversionService :=
  if s.executor ≠ .noExecutor then { s with executor := .shutDown, _initialized := false }
  else s

/-- How a call to `convert_async` is dispatched: `served` when the request is
submitted to the executor (the conversion itself may still succeed or fail),
`poolLifecycleError` for a fatal pool-not-running rejection. The source has
no code path producing the latter. -/
inductive DispatchOutcome
  | served
  | poolLifecycleError
deriving DecidableEq

/-- converter.py lines 54-93: `convert_async` first lazily initializes when
`not self._initialized`, then always submits the work to the executor. -/
def ConversionService.convert_async (s : ConversionService) :
    DispatchOutcome × ConversionService :=
  (.served, if s._initialized then s else s.initializeService)

/-- converter.py lines 95-100: `get_available_workers`. -/
def ConversionService.get_available_workers (s : ConversionService) : Nat :=
  if s._initialized = false ∨ s.executor = .noExecutor then 0 else s.max_workers

/-- converter.py lines 210-238: the `WorkerPool` wrapper. -/
structure WorkerPool where
  worker_count : Nat
  conversion_service : ConversionService
  _started : Bool
deriving DecidableEq

/-- converter.py lines 213-216: `WorkerPool.__init__`. -/
def WorkerPool.new (worker_count : Nat) : WorkerPool :=
  ⟨worker_count, ConversionService.new worker_count, false⟩

/-- converter.py lines 218-223: `start` initializes the service unless
already started. -/
def WorkerPool.start (p : WorkerPool) : WorkerPool :=
  if p._started then p
  else { p with conversion_service := p.conversion_service.initializeService,
                _started := true }

/-- converter.py lines 225-230: `shutdown` shuts the service down when
started. -/
def WorkerPool.shutdown (p : WorkerPool) : WorkerPool :=
  if p._started then
    { p with conversion_service := p.conversion_service.shutdownService,
             _started := false }
  else p

/-- converter.py lines 232-234: `get_conversion_service` hands the service
out unconditionally, whatever the lifecycle state. -/
def WorkerPool.get_conversion_service (p : WorkerPool) : ConversionService :=
  p.conversion_service

/-! Helper lemmas about the trimming primitives and the extension parser. -/

theorem head?_dropWhile_not (p : Char → Bool) :
    ∀ (l : List Char) (c : Char), (l.dropWhile p).head? = some c → p c = false := by
  intro l
  induction l with
  | nil => intro c h; simp at h
  | cons a t ih =>
    intro c h
    by_cases hpa : p a
    · rw [List.dropWhile_cons_of_pos hpa] at h
      exact ih c h
    · rw [List.dropWhile_cons_of_neg hpa] at h
      simp only [List.head?_cons, Option.some.injEq] at h
      subst h
      simpa using hpa

theorem getLast?_dropWhile (p : Char → Bool) :
    ∀ (l : List Char), l.dropWhile p ≠ [] → (l.dropWhile p).getLast? = l.getLast? := by
  intro l
  induction l with
  | nil => intro h; simp at h
  | cons a t ih =>
    intro h
    by_cases hpa : p a
    · rw [List.dropWhile_cons_of_pos hpa] at h ⊢
      have ht : t ≠ [] := by
        intro he
        rw [he] at h
        simp at h
      obtain ⟨b, t', rfl⟩ := List.exists_cons_of_ne_nil ht
      rw [List.getLast?_cons_cons]
      exact ih h
    · rw [List.dropWhile_cons_of_neg hpa]

theorem pyStrip_head? (l : List Char) (c : Char)
    (h : (pyStrip l).head? = some c) : isPySpace c = false := by
  unfold pyStrip at h
  rw [List.head?_reverse] at h
  have hne : (l.dropWhile isPySpace).reverse.dropWhile isPySpace ≠ [] := by
    intro he
    rw [he] at h
    simp at h
  rw [getLast?_dropWhile _ _ hne, List.getLast?_reverse] at h
  exact head?_dropWhile_not _ _ _ h

theorem pyStrip_getLast? (l : List Char) (c : Char)
    (h : (pyStrip l).getLast? = some c) : isPySpace c = false := by
  unfold pyStrip at h
  rw [List.getLast?_reverse] at h
  exact head?_dropWhile_not _ _ _ h

theorem deriveExtension_ne_empty (fn e : String)
    (h : deriveExtension fn = some e) : e ≠ "" := by
  intro he
  subst he
  unfold deriveExtension at h
  split at h
  · simp at h
  · split at h
    · have hd := congrArg String.data (Option.some.inj h)
      simp at hd
    · simp at h

theorem splitDot_cons (c : Char) (rest : List Char) :
    splitDot (c :: rest) =
      if c = '.' then [] :: splitDot rest
      else
        match splitDot rest with
        | h :: t => (c :: h) :: t
        | [] => [[c]] := by
  rfl

theorem splitDot_getLast_dot :
    ∀ (l : List Char), l.getLast? = some '.' →
      (splitDot l).getLast? = some [] ∧ 2 ≤ (splitDot l).length := by
  intro l
  induction l with
  | nil => intro h; simp at h
  | cons a t ih =>
    intro h
    cases t with
    | nil =>
      have ha : a = '.' := by simpa using h
      subst ha
      exact ⟨rfl, by simp [splitDot]⟩
    | cons b t' =>
      rw [List.getLast?_cons_cons] at h
      obtain ⟨h1, h2⟩ := ih h
      have hsplit : ∃ x xs, splitDot (b :: t') = x :: xs ∧ xs ≠ [] := by
        cases hs : splitDot (b :: t') with
        | nil => rw [hs] at h2; simp at h2
        | cons x xs =>
          refine ⟨x, xs, rfl, ?_⟩
          intro he
          rw [hs, he] at h2
          simp at h2
      obtain ⟨x, xs, hs, hxs⟩ := hsplit
      by_cases ha : a = '.'
      · subst ha
        rw [splitDot_cons, if_pos rfl, hs]
        constructor
        · rw [List.getLast?_cons_cons, ← hs, h1]
        · simp only [List.length_cons]
          omega
      · rw [splitDot_cons, if_neg ha, hs]
        obtain ⟨y, ys, rfl⟩ := List.exists_cons_of_ne_nil hxs
        constructor
        · rw [List.getLast?_cons_cons]
          rw [hs, List.getLast?_cons_cons] at h1
          exact h1
        · simp

theorem data_mk (l : List Char) : (String.mk l).data = l := rfl

theorem detectedAfterFallback_sniffed (m : String) (prov : Option String)
    (hm : m ≠ "") : detectedAfterFallback (some m) prov = some m := by
  unfold detectedAfterFallback
  rw [if_neg]
  intro hc
  exact hm (by simpa using hc.1)

theorem deriveExtension_trailing_dot (fn : String) (h : fn.data.getLast? = some '.') :
    deriveExtension fn = some "." := by
  have hne : fn.data ≠ [] := by
    intro he
    rw [he] at h
    simp at h
  have hfn : fn ≠ "" := by
    intro he
    subst he
    exact hne rfl
  have hmap : (fn.data.map Char.toLower).getLast? = some '.' := by
    rw [List.getLast?_map, h]
    rfl
  obtain ⟨h1, h2⟩ := splitDot_getLast_dot _ hmap
  unfold deriveExtension
  rw [if_neg hfn, if_pos (by omega)]
  have hlast : (splitDot (fn.data.map Char.toLower)).getLastD [] = [] := by
    rw [List.getLastD_eq_getLast?, h1]
    rfl
  rw [hlast]

/-! The claims. -/

/-- Claim C1, counterexample: the claim says every `convert_async` call on a
pool in the NotStarted or Stopped state fails with a `PoolLifecycleError`.
On the code it does not: at the concrete NotStarted pool `WorkerPool.new 4`
and at the concrete Stopped pool `(WorkerPool.new 4).start.shutdown`, the
dispatch is served (the service lazily re-initializes), and is in particular
not a pool-lifecycle rejection. -/
theorem convert_not_started_not_rejected :
    ((WorkerPool.new 4).get_conversion_service.convert_async).1
      = DispatchOutcome.served ∧
    (((WorkerPool.new 4).start.shutdown).get_conversion_service.convert_async).1
      = DispatchOutcome.served ∧
    ((WorkerPool.new 4).get_conversion_service.convert_async).1
      ≠ DispatchOutcome.poolLifecycleError ∧
    (((WorkerPool.new 4).start.shutdown).get_conversion_service.convert_async).1
      ≠ DispatchOutcome.poolLifecycleError ∧
    ((WorkerPool.new 4).start.shutdown).get_conversion_service._initialized = false ∧
    (WorkerPool.new 4).get_conversion_service._initialized = false := by
  decide

/-- Claim C1, amended: `convert_async` on a service whose pool is not running
(`_initialized = false`, which holds both before `start` and after
`shutdown`) does not fail and does not hang: it lazily (re-)initializes the
executor and serves the dispatch; no pool-lifecycle error exists in the
code. -/
theorem convert_lazy_init_serves (s : ConversionService)
    (h : s._initialized = false) :
    s.convert_async = (DispatchOutcome.served, s.initializeService) ∧
    (s.initializeService)._initialized = true ∧
    (s.initializeService).executor = ExecutorState.alive := by
  unfold ConversionService.convert_async ConversionService.initializeService
  rw [h]
  simp

/-- Witness for `convert_lazy_init_serves` at the fresh service of a
NotStarted pool. -/
theorem convert_lazy_init_serves_witness :
    (ConversionService.new 4)._initialized = false ∧
    ((ConversionService.new 4).convert_async
        = (DispatchOutcome.served, (ConversionService.new 4).initializeService) ∧
      ((ConversionService.new 4).initializeService)._initialized = true ∧
      ((ConversionService.new 4).initializeService).executor = ExecutorState.alive) :=
  ⟨rfl, convert_lazy_init_serves (ConversionService.new 4) rfl⟩

set_option maxHeartbeats 1000000 in
/-- Claim C2, counterexample: the claim says the fallback title is the first
top-level heading line occurring anywhere in the normalized markdown. At the
already-normalized markdown `"text\n\n# Title"` that heading exists (the
spec-level reading yields `"Title"`), yet the code's anchored `re.match`
returns no title. -/
theorem title_not_found_after_first_line :
    _clean_markdown "text\n\n# Title" = "text\n\n# Title" ∧
    firstHeadingTitle (_clean_markdown "text\n\n# Title") = some "Title" ∧
    _convert_sync_title none (_clean_markdown "text\n\n# Title") = none := by
  refine ⟨by decide, by decide, by decide⟩

/-- Claim C2, amended: the fallback title comes from a match anchored at the
start of the normalized markdown (`re.match` anchors at position zero even
with `re.MULTILINE`): whenever the normalized markdown does not begin with
`#`, the extracted title is none even if a top-level heading line occurs
further down. -/
theorem title_match_anchored_at_start (md : String)
    (h : md.data.head? ≠ some '#') :
    extract_title md = none ∧ _convert_sync_title none md = none := by
  have he : extract_title md = none := by
    unfold extract_title
    cases hd : md.data with
    | nil => rfl
    | cons c rest =>
      have hc : ¬ c = '#' := by
        intro hcc
        exact h (by rw [hd, hcc]; rfl)
      simp only [if_neg hc]
  refine ⟨he, ?_⟩
  unfold _convert_sync_title
  rw [he]
  rfl

/-- Witness for `title_match_anchored_at_start` at the markdown of the
counterexample, whose first character is `t`. -/
theorem title_match_anchored_at_start_witness :
    ("text\n\n# Title" : String).data.head? ≠ some '#' ∧
    (extract_title "text\n\n# Title" = none ∧
      _convert_sync_title none "text\n\n# Title" = none) :=
  ⟨by decide, title_match_anchored_at_start "text\n\n# Title" (by decide)⟩

set_option maxHeartbeats 1000000 in
/-- Claim C3, counterexample: `normalize` is not idempotent. For
`"a\n \n \nb"`, rstripping lines turns the whitespace-only lines empty and
creates a three-newline run after the newline-collapse step has already run,
so the first pass returns `"a\n\n\nb"` and a second pass collapses it to
`"a\n\nb"`. -/
theorem normalize_not_idempotent :
    _clean_markdown "a\n \n \nb" = "a\n\n\nb" ∧
    _clean_markdown (_clean_markdown "a\n \n \nb") = "a\n\nb" ∧
    _clean_markdown (_clean_markdown "a\n \n \nb") ≠ _clean_markdown "a\n \n \nb" := by
  refine ⟨by decide, by decide, by decide⟩

set_option maxHeartbeats 4000000 in
/-- Claim C3, amended: `normalize` is total (none and the empty string map to
the empty string) and is idempotent on those inputs and on the spec's listed
example inputs, but it is not idempotent for all inputs: line-level
trailing-whitespace stripping can create a newline run that only a second
application collapses. -/
theorem normalize_idempotent_on_empty :
    cleanMarkdownOpt none = "" ∧
    _clean_markdown "" = "" ∧
    _clean_markdown (_clean_markdown "") = _clean_markdown "" ∧
    _clean_markdown (_clean_markdown "Line 1\n\n\n\nLine 2")
      = _clean_markdown "Line 1\n\n\n\nLine 2" ∧
    _clean_markdown (_clean_markdown "Text before\n# Header\nText after")
      = _clean_markdown "Text before\n# Header\nText after" ∧
    _clean_markdown (_clean_markdown "• Item A\n· Item B\n- Item C")
      = _clean_markdown "• Item A\n· Item B\n- Item C" := by
  refine ⟨rfl, rfl, by decide, by decide, by decide, by decide⟩

/-- Claim C4: when magic-number sniffing yields a (truthy) mimetype `m`, the
outcome of `validate_file_type` is independent of the caller-provided
mimetype, and a successful classification returns the sniffed `m`; the
provided mimetype takes effect exactly when sniffing returned nothing. -/
theorem sniffed_mimetype_wins (m fn : String) (prov : Option String)
    (hm : m ≠ "") :
    validate_file_type (some m) fn prov = validate_file_type (some m) fn none ∧
    (∀ mt ext, validate_file_type (some m) fn prov = .ok mt ext → mt = some m) ∧
    validate_file_type none fn (some m) = validate_file_type (some m) fn none := by
  have hfb : detectedAfterFallback (some m) prov = some m :=
    detectedAfterFallback_sniffed m prov hm
  have hfb2 : detectedAfterFallback (some m) none = some m :=
    detectedAfterFallback_sniffed m none hm
  have hfb3 : detectedAfterFallback none (some m) = some m := by
    unfold detectedAfterFallback
    rw [if_pos ⟨rfl, by simpa using hm⟩]
  refine ⟨?_, ?_, ?_⟩
  · unfold validate_file_type
    rw [hfb, hfb2]
  · intro mt ext hok
    unfold validate_file_type at hok
    rw [hfb] at hok
    split at hok
    · exact absurd hok (by simp)
    · unfold mimeCheck at hok
      split at hok
      · exact absurd hok (by simp)
      · simpa using (ValidationResult.ok.inj hok).1.symm
  · unfold validate_file_type
    rw [hfb2, hfb3]

/-- Witness for `sniffed_mimetype_wins` at a sniffed PDF upload with a
conflicting provided mimetype. -/
theorem sniffed_mimetype_wins_witness :
    ("application/pdf" : String) ≠ "" ∧
    (validate_file_type (some "application/pdf") "a.pdf" (some "text/html")
        = validate_file_type (some "application/pdf") "a.pdf" none ∧
      (∀ mt ext,
        validate_file_type (some "application/pdf") "a.pdf" (some "text/html")
          = .ok mt ext → mt = some "application/pdf") ∧
      validate_file_type none "a.pdf" (some "application/pdf")
        = validate_file_type (some "application/pdf") "a.pdf" none) :=
  ⟨by decide,
   sniffed_mimetype_wins "application/pdf" "a.pdf" (some "text/html") (by decide)⟩

/-- Claim C5: the extension is the lowercased last dot-segment of the
filename; a filename without a dot (or an empty filename) yields no
extension and is never rejected for a missing extension; a derived extension
outside the allow-list is always rejected with the unsupported-extension
error, whatever the mimetypes. -/
theorem extension_allowlist_rules (det prov : Option String) (fn : String) :
    (deriveExtension fn = none →
      ∀ e, validate_file_type det fn prov ≠ .error (.unsupportedExtension e)) ∧
    (∀ e, deriveExtension fn = some e → e ∉ SUPPORTED_EXTENSIONS →
      validate_file_type det fn prov = .error (.unsupportedExtension e)) ∧
    deriveExtension "Dir.Report.PDF" = some ".pdf" ∧
    deriveExtension "README" = none ∧
    deriveExtension "" = none := by
  refine ⟨?_, ?_, by decide, by decide, by decide⟩
  · intro hnone e hcontra
    unfold validate_file_type at hcontra
    rw [hnone] at hcontra
    rw [if_neg (by simp)] at hcontra
    unfold mimeCheck at hcontra
    split at hcontra
    · exact absurd hcontra (by simp)
    · exact absurd hcontra (by simp)
  · intro e hsome hnotin
    have hne : e ≠ "" := deriveExtension_ne_empty fn e hsome
    unfold validate_file_type
    rw [hsome]
    rw [if_pos ⟨by simpa using hne, by simpa using hnotin⟩]
    simp

/-- Claim C6: `validate_file_size` fails with the payload-too-large error
exactly when the size exceeds the limit; the boundary case of size equal to
the limit succeeds. -/
theorem checkSize_iff (file_size max_file_size : Int) :
    (validate_file_size file_size max_file_size = some SecurityError.payloadTooLarge
      ↔ file_size > max_file_size) ∧
    (file_size = max_file_size →
      validate_file_size file_size max_file_size = none) := by
  constructor
  · unfold validate_file_size
    split
    · exact ⟨fun _ => by assumption, fun _ => rfl⟩
    · exact ⟨fun hc => absurd hc (by simp), fun hc => absurd hc (by assumption)⟩
  · intro he
    subst he
    unfold validate_file_size
    rw [if_neg (lt_irrefl _)]

set_option maxHeartbeats 1000000 in
/-- Claim C7: the normalizer maps `"• Item 1\n· Item 2\n- Item 3"` to exactly
`"- Item 1\n- Item 2\n- Item 3"`: both bullet characters become dash-space
bullets and the already-dashed line is unchanged. -/
theorem normalize_bullets_example :
    _clean_markdown "• Item 1\n· Item 2\n- Item 3"
      = "- Item 1\n- Item 2\n- Item 3" := by
  decide

set_option maxHeartbeats 1000000 in
/-- Claim C8: because `\s` in the bullet pattern matches newlines and the
`^\s*` prefix can start on the preceding blank line, the bullet rewrite also
deletes a blank line immediately before a bullet line: the cleanup of
`"a\n\n• x"` yields `"a\n- x"`, not `"a\n\n- x"`. -/
theorem bullet_sub_eats_blank_line :
    _clean_markdown "a\n\n• x" = "a\n- x" ∧
    _clean_markdown "a\n\n• x" ≠ "a\n\n- x" := by
  exact ⟨by decide, by decide⟩

/-- Claim C9: for every input string the normalizer's output carries no
leading and no trailing whitespace (its final step is a full `strip`), and
the empty input yields the empty string. -/
theorem normalize_output_trimmed (s : String) :
    (∀ c, (_clean_markdown s).data.head? = some c → isPySpace c = false) ∧
    (∀ c, (_clean_markdown s).data.getLast? = some c → isPySpace c = false) ∧
    _clean_markdown "" = "" := by
  refine ⟨?_, ?_, rfl⟩
  · intro c h
    unfold _clean_markdown at h
    split at h
    · simp at h
    · rw [data_mk] at h
      unfold cleanList at h
      exact pyStrip_head? _ _ h
  · intro c h
    unfold _clean_markdown at h
    split at h
    · simp at h
    · rw [data_mk] at h
      unfold cleanList at h
      exact pyStrip_getLast? _ _ h

/-- Claim C10: any filename whose last character is a dot (empty last
dot-segment) derives the extension `"."`, which is outside the allow-list,
so classification always rejects it with the unsupported-extension error
even though the filename carries no real extension. -/
theorem trailing_dot_rejected (det prov : Option String) (fn : String)
    (h : fn.data.getLast? = some '.') :
    deriveExtension fn = some "." ∧
    validate_file_type det fn prov = .error (.unsupportedExtension ".") := by
  have hd := deriveExtension_trailing_dot fn h
  refine ⟨hd, ?_⟩
  unfold validate_file_type
  rw [hd]
  rw [if_pos ⟨by decide, by decide⟩]
  rfl

/-- Witness for `trailing_dot_rejected` at the filename `file.`. -/
theorem trailing_dot_rejected_witness :
    ("file." : String).data.getLast? = some '.' ∧
    (deriveExtension "file." = some "." ∧
      validate_file_type none "file." none
        = .error (.unsupportedExtension ".")) :=
  ⟨by decide, trailing_dot_rejected none none "file." (by decide)⟩

end Markitdown
